import Mathlib

/-!
# Medical-Search: a shallow embedding of `script.js`

The page script queries a literature API, keeps the records that pass a
reputation test, ranks them, formats the best eight and offers a mail link
that lists them.  This file embeds the script's functions and handlers as
Lean definitions and proves properties of them.

## Modelling conventions

* A JavaScript string is its sequence of UTF-16 code units (`JSString`), so
  `.length`, `.slice` and `+` are `List.length`, `List.take` and `++`.
* A JavaScript number is `JSNum`: `NaN`, an infinity, or an exact decimal
  number `m / 10 ^ k`; `Number(...)` on a string follows the grammar of
  `StringToNumber`.  Rounding to a 64-bit double is not modelled.
* The text fields of a record (`title`, `authorString`, `journalTitle`,
  `pubYear`, `doi`, `pmid`, `abstractText`) are strings when present, as in the
  API's record format.  `citedByCount` is an arbitrary scalar `JSVal`, because
  the script converts it with `Number(...)`.
* A function that can throw returns an `Option`; `none` is the exception.
  `encodeURIComponent` throws on a lone surrogate, and inside the `try` block
  of the submit handler every exception reaches the `catch` block.
* The `async` submit handler is split at its single `await` point into
  `submitStart` and `submitResume`; the network exchange is the
  `SearchResponse` handed to `submitResume`.
-/

namespace MedicalSearch

set_option maxRecDepth 100000

/-! ## Strings -/

/-- A JavaScript string: the list of its UTF-16 code units. -/
abbrev JSString := List Nat

/-- UTF-16 code units of one Unicode scalar value. -/
def utf16 (c : Char) : List Nat :=
  if c.toNat < 0x10000 then [c.toNat]
  else [0xD800 + (c.toNat - 0x10000) / 0x400, 0xDC00 + (c.toNat - 0x10000) % 0x400]

/-- The JavaScript string denoted by a source literal. -/
def lit (s : String) : JSString := s.toList.flatMap utf16

/-- `WhiteSpace` and `LineTerminator` code points, the ones removed by
`String.prototype.trim` and skipped by `Number` on strings. -/
def isWhiteSpace (c : Nat) : Bool :=
  c = 0x09 || c = 0x0A || c = 0x0B || c = 0x0C || c = 0x0D || c = 0x20 || c = 0xA0 ||
  c = 0x1680 || (0x2000 ≤ c && c ≤ 0x200A) || c = 0x2028 || c = 0x2029 || c = 0x202F ||
  c = 0x205F || c = 0x3000 || c = 0xFEFF

/-- `String.prototype.trim`. -/
def trim (s : JSString) : JSString :=
  ((s.dropWhile isWhiteSpace).reverse.dropWhile isWhiteSpace).reverse

/-- `String.prototype.slice(0, n)` for a non-negative `n`. -/
def slice0 (s : JSString) (n : Nat) : JSString := s.take n

/-- `Array.prototype.join` on an array of strings. -/
def join (sep : JSString) : List JSString → JSString
  | [] => []
  | [s] => s
  | s :: t :: rest => s ++ sep ++ join sep (t :: rest)

/-- Decimal rendering of a non-negative integer inside a template literal. -/
def natToString (n : Nat) : JSString := lit (toString n)

/-! ## Numbers and scalar values -/

/-- A JavaScript number, read exactly: `NaN`, a decimal number `m / 10 ^ k`
(`fin m k`; an integer `n` is `fin n 0`), or one of the two infinities. -/
inductive JSNum where
  | nan : JSNum
  | fin (m : Int) (k : Nat) : JSNum
  | pinf : JSNum
  | ninf : JSNum
  deriving DecidableEq, Repr

namespace JSNum

/-- Binary `+` on numbers. -/
def add : JSNum → JSNum → JSNum
  | nan, _ => nan
  | _, nan => nan
  | fin a j, fin b k => fin (a * 10 ^ k + b * 10 ^ j) (j + k)
  | fin _ _, pinf => pinf
  | fin _ _, ninf => ninf
  | pinf, ninf => nan
  | pinf, _ => pinf
  | ninf, pinf => nan
  | ninf, _ => ninf

/-- Binary `-` on numbers. -/
def sub : JSNum → JSNum → JSNum
  | nan, _ => nan
  | _, nan => nan
  | fin a j, fin b k => fin (a * 10 ^ k - b * 10 ^ j) (j + k)
  | fin _ _, pinf => ninf
  | fin _ _, ninf => pinf
  | pinf, pinf => nan
  | pinf, _ => pinf
  | ninf, ninf => nan
  | ninf, _ => ninf

/-- The comparison `a >= b`; false as soon as one side is `NaN`. -/
def ge : JSNum → JSNum → Bool
  | nan, _ => false
  | _, nan => false
  | fin a j, fin b k => decide (b * 10 ^ j ≤ a * 10 ^ k)
  | pinf, _ => true
  | _, ninf => true
  | _, _ => false

/-- The test `v > 0`. -/
def isPositive : JSNum → Bool
  | fin a _ => decide (0 < a)
  | pinf => true
  | _ => false

/-- The number is `+0` or `-0`. -/
def isZero : JSNum → Bool
  | fin a _ => a == 0
  | _ => false

end JSNum

/-- A scalar JavaScript value, as a JSON field can hold it. -/
inductive JSVal where
  | undefined : JSVal
  | null : JSVal
  | bool (b : Bool) : JSVal
  | num (x : JSNum) : JSVal
  | str (s : JSString) : JSVal
  deriving DecidableEq, Repr

/-- `ToBoolean`. -/
def truthy : JSVal → Bool
  | .undefined => false
  | .null => false
  | .bool b => b
  | .num .nan => false
  | .num x => !x.isZero
  | .str s => !s.isEmpty

/-- The operator `a || b` on scalar values. -/
def orElse (a b : JSVal) : JSVal := if truthy a then a else b

/-- The code unit is a decimal digit. -/
def isDigit (c : Nat) : Bool := 0x30 ≤ c && c ≤ 0x39

/-- The value of a digit of a numeral in base 2 to 16, `none` for any other
code unit. -/
def digitValue (radix c : Nat) : Option Nat :=
  let v :=
    if 0x30 ≤ c ∧ c ≤ 0x39 then c - 0x30
    else if 0x61 ≤ c ∧ c ≤ 0x66 then c - 0x61 + 10
    else if 0x41 ≤ c ∧ c ≤ 0x46 then c - 0x41 + 10
    else radix
  if v < radix then some v else none

/-- The value of a non-empty run of digits in the given base, read from the
accumulator `acc` on; `none` when a code unit is not a digit of that base. -/
def digitsFrom (radix : Nat) (acc : Nat) : List Nat → Option Nat
  | [] => some acc
  | c :: cs =>
    match digitValue radix c with
    | some v => digitsFrom radix (acc * radix + v) cs
    | none => none

/-- `DecimalDigits` or a prefixed integer body: a non-empty run of digits. -/
def digits (radix : Nat) (s : List Nat) : Option Nat :=
  match s with
  | [] => none
  | _ => digitsFrom radix 0 s

/-- `ExponentPart`, when present: `e` or `E`, an optional sign, and digits.
The empty text is the exponent 0. -/
def exponentPart (s : List Nat) : Option Int :=
  match s with
  | [] => some 0
  | c :: rest =>
    if c = 0x65 ∨ c = 0x45 then
      match rest with
      | 0x2B :: ds => (digits 10 ds).map (fun v => (v : Int))
      | 0x2D :: ds => (digits 10 ds).map (fun v => -(v : Int))
      | ds => (digits 10 ds).map (fun v => (v : Int))
    else none

/-- The number `mant * 10 ^ (e - frac)`. -/
def scaled (mant : Nat) (frac : Nat) (e : Int) : JSNum :=
  if (frac : Int) ≤ e then .fin ((mant : Int) * 10 ^ (e - frac).toNat) 0
  else .fin mant ((frac : Int) - e).toNat

/-- `StrUnsignedDecimalLiteral`: `Infinity`, or digits with an optional
fraction and an optional exponent, at least one digit before or after the
point. -/
def unsignedDecimal (s : List Nat) : Option JSNum :=
  if s = lit "Infinity" then some .pinf
  else
    let ip := s.takeWhile isDigit
    let r := s.dropWhile isDigit
    let fp := match r with
      | 0x2E :: t => t.takeWhile isDigit
      | _ => []
    let r := match r with
      | 0x2E :: t => t.dropWhile isDigit
      | _ => r
    if ip.isEmpty && fp.isEmpty then none
    else
      match digitsFrom 10 0 (ip ++ fp), exponentPart r with
      | some mant, some e => some (scaled mant fp.length e)
      | _, _ => none

/-- The negation `-x`. -/
def JSNum.neg : JSNum → JSNum
  | .nan => .nan
  | .fin m k => .fin (-m) k
  | .pinf => .ninf
  | .ninf => .pinf

/-- `StringToNumber`: surrounding white space is dropped; the empty text is
`0`; a binary, octal or hexadecimal integer literal (`0b`, `0o`, `0x`, either
case) is its value; an optionally signed decimal literal is its value; any
other text is `NaN`. -/
def stringToNumber (s : JSString) : JSNum :=
  match trim s with
  | [] => .fin 0 0
  | 0x30 :: 0x78 :: ds => ((digits 16 ds).map (fun v => JSNum.fin v 0)).getD .nan
  | 0x30 :: 0x58 :: ds => ((digits 16 ds).map (fun v => JSNum.fin v 0)).getD .nan
  | 0x30 :: 0x6F :: ds => ((digits 8 ds).map (fun v => JSNum.fin v 0)).getD .nan
  | 0x30 :: 0x4F :: ds => ((digits 8 ds).map (fun v => JSNum.fin v 0)).getD .nan
  | 0x30 :: 0x62 :: ds => ((digits 2 ds).map (fun v => JSNum.fin v 0)).getD .nan
  | 0x30 :: 0x42 :: ds => ((digits 2 ds).map (fun v => JSNum.fin v 0)).getD .nan
  | 0x2B :: ds => (unsignedDecimal ds).getD .nan
  | 0x2D :: ds => ((unsignedDecimal ds).map JSNum.neg).getD .nan
  | ds => (unsignedDecimal ds).getD .nan

/-- The conversion `Number(v)`. -/
def toNumber : JSVal → JSNum
  | .undefined => .nan
  | .null => .fin 0 0
  | .bool b => .fin (if b then 1 else 0) 0
  | .num x => x
  | .str s => stringToNumber s

/-! ## Records -/

/-- A raw record of the search API (the fields the script reads). -/
structure RawArticle where
  title : Option JSString := none
  authorString : Option JSString := none
  journalTitle : Option JSString := none
  pubYear : Option JSString := none
  doi : Option JSString := none
  pmid : Option JSString := none
  citedByCount : JSVal := .undefined
  abstractText : Option JSString := none
  deriving DecidableEq, Repr

/-- The expression `field || dflt` for an optional string field: the default
replaces an absent field and also an empty string, which is falsy. -/
def strOr (field : Option JSString) (dflt : JSString) : JSString :=
  match field with
  | some (c :: cs) => c :: cs
  | _ => dflt

/-- The `Set` of journal names `HIGH_REPUTATION_JOURNALS`. -/
def HIGH_REPUTATION_JOURNALS : List JSString :=
  [ lit "The Lancet",
    lit "The New England Journal of Medicine",
    lit "JAMA",
    lit "JAMA Surgery",
    lit "Annals of Surgery",
    lit "BMJ",
    lit "British Journal of Surgery",
    lit "Journal of the American College of Surgeons",
    lit "Anesthesiology",
    lit "The BMJ" ]

/-- `HIGH_REPUTATION_JOURNALS.has(name)`. -/
def has (name : JSString) : Bool := decide (name ∈ HIGH_REPUTATION_JOURNALS)

/-- `buildQuery(topic)`. -/
def buildQuery (topic : JSString) : JSString :=
  lit "(\"bloodless\" OR \"transfusion-free\" OR \"patient blood management\" OR \"blood conservation\") AND (surgery OR surgical OR operative) AND (" ++ topic ++ lit ")"

/-- The subexpression `Number(item.citedByCount || 0)`. -/
def citationCount (item : RawArticle) : JSNum :=
  toNumber (orElse item.citedByCount (.num (.fin 0 0)))

/-- `score(item)`. -/
def score (item : RawArticle) : JSNum :=
  let citedBy := toNumber (orElse item.citedByCount (.num (.fin 0 0)))
  let journal := strOr item.journalTitle (lit "")
  citedBy.add (.fin (if has journal then 100 else 0) 0)

/-- A formatted record, the object `formatResult` returns. -/
structure DisplayArticle where
  title : JSString
  authors : JSString
  journal : JSString
  year : JSString
  doi : JSString
  pmid : JSString
  url : JSString
  abstract : JSString
  deriving DecidableEq, Repr

/-- `formatResult(item)`. -/
def formatResult (item : RawArticle) : DisplayArticle :=
  let title := strOr item.title (lit "Título indisponível")
  let authors := strOr item.authorString (lit "Autores indisponíveis")
  let journal := strOr item.journalTitle (lit "Revista indisponível")
  let year := strOr item.pubYear (lit "Ano indisponível")
  let doi := strOr item.doi (lit "")
  let pmid := strOr item.pmid (lit "")
  let url :=
    if !doi.isEmpty then lit "https://doi.org/" ++ doi
    else if !pmid.isEmpty then lit "https://pubmed.ncbi.nlm.nih.gov/" ++ pmid ++ lit "/"
    else lit ""
  let abstract := slice0 (strOr item.abstractText (lit "Resumo indisponível")) 450 ++ lit "..."
  { title, authors, journal, year, doi, pmid, url, abstract }

/-! ## Filtering and ranking -/

/-- The filter callback of the submit handler:
`HIGH_REPUTATION_JOURNALS.has(item.journalTitle || "") || Number(item.citedByCount || 0) >= 20`. -/
def keep (item : RawArticle) : Bool :=
  has (strOr item.journalTitle (lit "")) ||
    (toNumber (orElse item.citedByCount (.num (.fin 0 0)))).ge (.fin 20 0)

/-- The sort callback of the submit handler: `(a, b) => score(b) - score(a)`. -/
def compareFn (a b : RawArticle) : JSNum := (score b).sub (score a)

/-- `SortCompare`: the number the comparator returns, with `NaN` read as `+0`. -/
def sortCompare {α : Type} (cmp : α → α → JSNum) (x y : α) : JSNum :=
  match cmp x y with
  | .nan => .fin 0 0
  | v => v

/-- Stable insertion of `x`, which preceded every element of the list in the
original array: `x` goes after exactly the leading elements the comparator
puts before it (those `y` with `SortCompare(x, y) > 0`). -/
def insertSorted {α : Type} (cmp : α → α → JSNum) (x : α) : List α → List α
  | [] => [x]
  | y :: ys =>
    if (sortCompare cmp x y).isPositive then y :: insertSorted cmp x ys else x :: y :: ys

/-- `Array.prototype.sort(cmp)`: a stable sort, as the language requires;
with a consistent comparator the result is the unique stable ordering. -/
def sort {α : Type} (cmp : α → α → JSNum) : List α → List α
  | [] => []
  | x :: xs => insertSorted cmp x (sort cmp xs)

/-- The filter / sort / `slice(0, 8)` part of the pipeline, before `map(formatResult)`. -/
def rank (raw : List RawArticle) : List RawArticle :=
  (sort compareFn (raw.filter keep)).take 8

/-- The constant `filtered` of the submit handler. -/
def filtered (raw : List RawArticle) : List DisplayArticle :=
  (rank raw).map formatResult

/-! ## Page state -/

/-- The mutable state the script reads and writes: its two globals and the
DOM properties it touches. -/
structure Page where
  /-- `topicInput.value` -/
  topicInput : JSString
  /-- `toEmailInput.value` -/
  toEmailInput : JSString
  latestResults : List DisplayArticle
  latestTopic : JSString
  /-- `feedbackEl.innerHTML` -/
  feedback : JSString
  /-- `resultsList.innerHTML` -/
  resultsList : JSString
  /-- whether `resultsCard.classList` contains `hidden` -/
  resultsCardHidden : Bool
  /-- whether `emailCard.classList` contains `hidden` -/
  emailCardHidden : Bool
  /-- the `href` attribute of `mailtoLink` -/
  mailtoHref : JSString
  deriving DecidableEq, Repr

/-- `showMessage(type, text)`. -/
def showMessage (type text : JSString) (p : Page) : Page :=
  { p with feedback := lit "<div class=\"message " ++ type ++ lit "\">" ++ text ++ lit "</div>" }

/-- `clearMessage()`. -/
def clearMessage (p : Page) : Page :=
  { p with feedback := lit "" }

/-- The list item `renderResults` writes for one article. -/
def renderItem (article : DisplayArticle) : JSString :=
  lit "\n    <li>\n      <h3>" ++ article.title ++
  lit "</h3>\n      <p><strong>Autores:</strong> " ++ article.authors ++
  lit "</p>\n      <p><strong>Revista:</strong> " ++ article.journal ++ lit " (" ++ article.year ++
  lit ")</p>\n      <p>" ++ article.abstract ++
  lit "</p>\n      " ++
  (if !article.url.isEmpty then
    lit "<a href=\"" ++ article.url ++
      lit "\" target=\"_blank\" rel=\"noopener noreferrer\">Abrir artigo</a>"
   else lit "") ++
  lit "\n    </li>\n  "

/-- `renderResults(results)`. -/
def renderResults (results : List DisplayArticle) (p : Page) : Page :=
  { p with
    resultsList := join (lit "") (results.map renderItem)
    resultsCardHidden := false
    emailCardHidden := false }

/-! ## `encodeURIComponent` -/

/-- The code units `encodeURIComponent` leaves as they are: letters, digits
and the marks `- _ . ! ~ * ' ( )`. -/
def isUriUnescaped (c : Nat) : Bool :=
  (0x41 ≤ c && c ≤ 0x5A) || (0x61 ≤ c && c ≤ 0x7A) || (0x30 ≤ c && c ≤ 0x39) ||
  c = 0x2D || c = 0x5F || c = 0x2E || c = 0x21 || c = 0x7E || c = 0x2A || c = 0x27 ||
  c = 0x28 || c = 0x29

/-- An upper-case hexadecimal digit. -/
def hexDigit (n : Nat) : Nat := if n < 10 then 0x30 + n else 0x41 + (n - 10)

/-- The escape `%XY` of one octet. -/
def percent (octet : Nat) : List Nat := [0x25, hexDigit (octet / 16), hexDigit (octet % 16)]

/-- The UTF-8 octets of a code point. -/
def utf8 (cp : Nat) : List Nat :=
  if cp < 0x80 then [cp]
  else if cp < 0x800 then [0xC0 + cp / 0x40, 0x80 + cp % 0x40]
  else if cp < 0x10000 then [0xE0 + cp / 0x1000, 0x80 + cp / 0x40 % 0x40, 0x80 + cp % 0x40]
  else [0xF0 + cp / 0x40000, 0x80 + cp / 0x1000 % 0x40, 0x80 + cp / 0x40 % 0x40,
        0x80 + cp % 0x40]

/-- `encodeURIComponent(s)`; `none` is the `URIError` it throws when `s` holds
a surrogate code unit that is not part of a pair. -/
def encodeURIComponent : JSString → Option JSString
  | [] => some []
  | [c] =>
    if isUriUnescaped c then some [c]
    else if 0xD800 ≤ c ∧ c ≤ 0xDFFF then none
    else some ((utf8 c).flatMap percent)
  | c :: d :: rest =>
    if isUriUnescaped c then (encodeURIComponent (d :: rest)).map (fun t => c :: t)
    else if 0xDC00 ≤ c ∧ c ≤ 0xDFFF then none
    else if 0xD800 ≤ c ∧ c ≤ 0xDBFF then
      if 0xDC00 ≤ d ∧ d ≤ 0xDFFF then
        (encodeURIComponent rest).map (fun t =>
          (utf8 (0x10000 + (c - 0xD800) * 0x400 + (d - 0xDC00))).flatMap percent ++ t)
      else none
    else (encodeURIComponent (d :: rest)).map (fun t => (utf8 c).flatMap percent ++ t)

/-! ## The mail link -/

/-- `xs.map((a, i) => f(i, a))` with the index counted from `i`. -/
def mapFrom {α β : Type} (f : Nat → α → β) : Nat → List α → List β
  | _, [] => []
  | i, a :: as => f i a :: mapFrom f (i + 1) as

/-- The text block of the `i`-th result (`i` counted from 0) in the mail body. -/
def mailBlock (i : Nat) (a : DisplayArticle) : JSString :=
  natToString (i + 1) ++ lit ". " ++ a.title ++ lit "\n" ++ a.authors ++ lit "\n" ++
  a.journal ++ lit " (" ++ a.year ++ lit ")\n" ++
  (if !a.url.isEmpty then a.url else lit "Sem link") ++ lit "\n"

/-- The constant `subject` of `updateMailtoLink`. -/
def mailSubject (latestTopic : JSString) : JSString :=
  lit "Resultados de pesquisa médica: " ++ latestTopic

/-- The array joined into the constant `body` of `updateMailtoLink`. -/
def mailLines (latestTopic : JSString) (latestResults : List DisplayArticle) : List JSString :=
  [lit "Resultados para: " ++ latestTopic, lit ""] ++ mapFrom mailBlock 0 latestResults

/-- The constant `body` of `updateMailtoLink`. -/
def mailBody (latestTopic : JSString) (latestResults : List DisplayArticle) : JSString :=
  join (lit "\n") (mailLines latestTopic latestResults)

/-- `updateMailtoLink()`.  The result is `none` when `encodeURIComponent`
throws: the `URIError` leaves the function before `setAttribute` runs, so the
page is as it was. -/
def updateMailtoLink (p : Page) : Option Page :=
  let to_ := trim p.toEmailInput
  if to_.isEmpty || p.latestResults.length == 0 then
    some { p with mailtoHref := lit "#" }
  else
    let subject := mailSubject p.latestTopic
    let body := mailBody p.latestTopic p.latestResults
    match encodeURIComponent to_, encodeURIComponent subject, encodeURIComponent body with
    | some t, some s, some b =>
      let href := lit "mailto:" ++ t ++ lit "?subject=" ++ s ++ lit "&body=" ++ b
      some { p with mailtoHref := href }
    | _, _, _ => none

/-- The `input` listener of the email form: `updateMailtoLink` with nothing
to catch what it throws. -/
def onEmailInput (p : Page) : Page := (updateMailtoLink p).getD p

/-! ## The submit handler -/

/-- The value `response.json()` resolves to, as far as the script looks
into it. -/
inductive Payload where
  /-- JSON `null`: reading `payload.resultList` throws a `TypeError` -/
  | null : Payload
  /-- `payload.resultList` or its `result` is missing or falsy: `raw` is `[]` -/
  | noResult : Payload
  /-- `payload.resultList.result` is truthy and not an array: `raw.filter`
  throws a `TypeError` -/
  | notArray : Payload
  /-- `payload.resultList.result` is an array; `none` is an element `null`,
  on which the filter callback throws a `TypeError` -/
  | records (items : List (Option RawArticle)) : Payload
  deriving DecidableEq, Repr

/-- The array the filter runs through, `none` when a `TypeError` is thrown
before `latestResults` is assigned. -/
def Payload.raw : Payload → Option (List RawArticle)
  | .null => none
  | .noResult => some []
  | .notArray => none
  | .records items => if items.all Option.isSome then some (items.filterMap id) else none

/-- What `response.json()` yields. -/
inductive Body where
  /-- the body is not JSON: the promise rejects -/
  | malformed : Body
  /-- the parsed payload -/
  | json (payload : Payload) : Body
  deriving DecidableEq, Repr

/-- Outcome of the `fetch` call. -/
inductive SearchResponse where
  /-- `fetch` rejects (network failure) -/
  | networkFailure : SearchResponse
  /-- a response with its HTTP status and body -/
  | response (status : Nat) (body : Body) : SearchResponse
  deriving DecidableEq, Repr

/-- `response.ok`: the status is in the range 200-299. -/
def isOk (status : Nat) : Bool := 200 ≤ status && status ≤ 299

/-- The `catch` block of the submit handler. -/
def onError (p : Page) : Page :=
  showMessage (lit "error")
    (lit "Falha ao consultar Europe PMC. Verifique conexão/CORS e tente novamente.")
    { p with resultsCardHidden := true, emailCardHidden := true }

/-- The submit handler up to the `fetch` call: the new page state and, when a
request is sent, its `query` parameter. -/
def submitStart (p : Page) : Page × Option JSString :=
  let p := clearMessage p
  let topic := trim p.topicInput
  let p := { p with latestTopic := topic }
  if topic.isEmpty then
    (showMessage (lit "error") (lit "Informe um tema para pesquisa.") p, none)
  else
    (showMessage (lit "success") (lit "Consultando base de dados...") p, some (buildQuery topic))

/-- The statements of the `try` block that run once the body was parsed as
`payload`; whatever is thrown among them reaches the `catch` block with the
page as it is at that point. -/
def onPayload (payload : Payload) (p : Page) : Page :=
  match payload.raw with
  | none => onError p
  | some raw =>
    let filtered := filtered raw
    let p := { p with latestResults := filtered }
    if filtered.length == 0 then
      showMessage (lit "error")
        (lit "Nenhum resultado com critério de reputação foi encontrado. Tente outro termo.")
        { p with resultsCardHidden := true, emailCardHidden := true }
    else
      let p := renderResults filtered p
      match updateMailtoLink p with
      | none => onError p
      | some p =>
        showMessage (lit "success")
          (natToString filtered.length ++ lit " artigo(s) encontrado(s).") p

/-- The submit handler from the point where the `fetch` promise settles. -/
def submitResume (r : SearchResponse) (p : Page) : Page :=
  match r with
  | .networkFailure => onError p
  | .response status body =>
    if !isOk status then onError p
    else
      match body with
      | .malformed => onError p
      | .json payload => onPayload payload p

/-- A whole run of the submit handler with no other event in between. -/
def submit (r : SearchResponse) (p : Page) : Page :=
  match submitStart p with
  | (p, none) => p
  | (p, some _) => submitResume r p

/-! ## Words of the specification -/

/-- The record's `journalTitle` is one of the allow-listed journal names. -/
def inAllowList (item : RawArticle) : Bool :=
  match item.journalTitle with
  | some j => decide (j ∈ HIGH_REPUTATION_JOURNALS)
  | none => false

/-- A text field is present: it holds a non-empty string (the script tests
its fields by truthiness, and the empty string is falsy). -/
def present (field : Option JSString) : Bool :=
  match field with
  | some (_ :: _) => true
  | _ => false

/-- The citation count is a JavaScript number or is absent (`undefined` or
`null`). -/
def numericOrAbsent (v : JSVal) : Bool :=
  match v with
  | .undefined => true
  | .null => true
  | .num _ => true
  | _ => false

/-- Scores do not increase along the list: `score(a) >= score(b)` for every
adjacent pair `a`, `b`. -/
def NonIncreasing (l : List RawArticle) : Prop :=
  List.Chain' (fun a b => (score a).ge (score b) = true) l

/-- The source text of the abstract: the record's abstract text, or the
placeholder string when that is absent. -/
def sourceText (item : RawArticle) : JSString :=
  strOr item.abstractText (lit "Resumo indisponível")

/-- The search request fails: the network call fails, the HTTP status is not
a success status, or the body does not parse as JSON. -/
def isFailure (r : SearchResponse) : Bool :=
  match r with
  | .networkFailure => true
  | .response status body => !isOk status || body == .malformed

/-- The banner of the `catch` block, as `showMessage` writes it. -/
def retrievalErrorBanner : JSString :=
  lit "<div class=\"message error\">Falha ao consultar Europe PMC. Verifique conexão/CORS e tente novamente.</div>"

/-! ## Sample records -/

/-- A record of an allow-listed journal with 5 citations. -/
def sampleLancet : RawArticle :=
  { journalTitle := some (lit "The Lancet"), citedByCount := .num (.fin 5 0) }

/-- A record of a journal outside the allow-list with 3 citations. -/
def sampleUnknown : RawArticle :=
  { journalTitle := some (lit "Unknown Journal"), citedByCount := .num (.fin 3 0) }

/-- A record of a journal outside the allow-list with 250 citations. -/
def sampleCited : RawArticle :=
  { journalTitle := some (lit "Transfusion"), citedByCount := .num (.fin 250 0) }

/-- A record of an allow-listed journal whose `citedByCount` is the text `abc`. -/
def sampleText : RawArticle :=
  { journalTitle := some (lit "The Lancet"), citedByCount := .str (lit "abc") }

/-- A record with a DOI, a PubMed id and a short abstract. -/
def sampleFull : RawArticle :=
  { title := some (lit "Bloodless cardiac surgery"),
    authorString := some (lit "Silva A, Costa B."),
    journalTitle := some (lit "JAMA Surgery"),
    pubYear := some (lit "2021"),
    doi := some (lit "10.1000/j.1"),
    pmid := some (lit "12345"),
    citedByCount := .num (.fin 40 0),
    abstractText := some (lit "Short abstract.") }

/-- A record of an allow-listed journal whose title is a lone surrogate, as
the JSON text `"\ud800"` yields it. -/
def sampleSurrogate : RawArticle :=
  { title := some [0xD800],
    journalTitle := some (lit "The Lancet"),
    citedByCount := .num (.fin 5 0) }

/-- A page on which nothing was searched yet, with a topic and a recipient
typed in. -/
def samplePage : Page :=
  { topicInput := lit " cardiac ",
    toEmailInput := lit "a@b.c",
    latestResults := [],
    latestTopic := lit "",
    feedback := lit "",
    resultsList := lit "",
    resultsCardHidden := true,
    emailCardHidden := true,
    mailtoHref := lit "#" }

/-- A successful response carrying the given records. -/
def okResponse (records : List RawArticle) : SearchResponse :=
  .response 200 (.json (.records (records.map some)))

/-! ## Lemmas on numbers -/

theorem JSNum.ge_trans {a b c : JSNum} (h1 : a.ge b = true) (h2 : b.ge c = true) :
    a.ge c = true := by
  rcases a with _ | ⟨am, ak⟩ | _ | _ <;> rcases b with _ | ⟨bm, bk⟩ | _ | _ <;>
    rcases c with _ | ⟨cm, ck⟩ | _ | _ <;> simp_all [JSNum.ge]
  have ha : (0 : Int) < 10 ^ ak := by positivity
  have hb : (0 : Int) < 10 ^ bk := by positivity
  have hc : (0 : Int) < 10 ^ ck := by positivity
  have e1 := mul_le_mul_of_nonneg_right h1 hc.le
  have e2 := mul_le_mul_of_nonneg_right h2 ha.le
  have e3 : cm * 10 ^ ak * 10 ^ bk ≤ am * 10 ^ ck * 10 ^ bk := by
    calc cm * 10 ^ ak * 10 ^ bk = cm * 10 ^ bk * 10 ^ ak := by ring
      _ ≤ bm * 10 ^ ck * 10 ^ ak := e2
      _ = bm * 10 ^ ak * 10 ^ ck := by ring
      _ ≤ am * 10 ^ bk * 10 ^ ck := e1
      _ = am * 10 ^ ck * 10 ^ bk := by ring
  exact le_of_mul_le_mul_right e3 hb

theorem ge_of_not_positive {a b : JSNum} (ha : a ≠ .nan) (hb : b ≠ .nan)
    (h : (match b.sub a with | .nan => JSNum.fin 0 0 | v => v).isPositive = false) :
    a.ge b = true := by
  rcases a with _ | ⟨am, ak⟩ | _ | _ <;> rcases b with _ | ⟨bm, bk⟩ | _ | _ <;>
    simp_all [JSNum.ge, JSNum.sub, JSNum.isPositive]

theorem ge_of_positive {a b : JSNum} (ha : a ≠ .nan) (hb : b ≠ .nan)
    (h : (match b.sub a with | .nan => JSNum.fin 0 0 | v => v).isPositive = true) :
    b.ge a = true := by
  rcases a with _ | ⟨am, ak⟩ | _ | _ <;> rcases b with _ | ⟨bm, bk⟩ | _ | _ <;>
    simp_all [JSNum.ge, JSNum.sub, JSNum.isPositive]
  exact h.le

/-! ## Lemmas on strings -/

theorem has_strOr (item : RawArticle) :
    has (strOr item.journalTitle (lit "")) = inAllowList item := by
  unfold inAllowList has strOr
  rcases h : item.journalTitle with _ | s
  · decide
  · rcases s with _ | ⟨c, cs⟩
    · decide
    · rfl

/-! ## Lemmas on the sort -/

theorem insertSorted_perm {α : Type} (cmp : α → α → JSNum) (x : α) (l : List α) :
    (insertSorted cmp x l).Perm (x :: l) := by
  induction l with
  | nil => exact List.Perm.refl _
  | cons y ys ih =>
    unfold insertSorted
    split
    · exact (List.Perm.cons y ih).trans (List.Perm.swap x y ys)
    · exact List.Perm.refl _

theorem sort_perm {α : Type} (cmp : α → α → JSNum) (l : List α) : (sort cmp l).Perm l := by
  induction l with
  | nil => exact List.Perm.refl _
  | cons x xs ih =>
    unfold sort
    exact (insertSorted_perm cmp x _).trans (List.Perm.cons x ih)

theorem insertSorted_pairwise {α : Type} (cmp : α → α → JSNum) (r : α → α → Prop) (x : α)
    (l : List α)
    (hpos : ∀ a ∈ x :: l, ∀ b ∈ x :: l, (sortCompare cmp a b).isPositive = true → r b a)
    (hneg : ∀ a ∈ x :: l, ∀ b ∈ x :: l, (sortCompare cmp a b).isPositive = false → r a b)
    (htrans : ∀ a ∈ x :: l, ∀ b ∈ x :: l, ∀ c ∈ x :: l, r a b → r b c → r a c)
    (hl : l.Pairwise r) : (insertSorted cmp x l).Pairwise r := by
  induction l with
  | nil => simp [insertSorted]
  | cons y ys ih =>
    have hys := List.pairwise_cons.mp hl
    have hx : x ∈ x :: y :: ys := by simp
    have hy : y ∈ x :: y :: ys := by simp
    have hsub : ∀ z ∈ x :: ys, z ∈ x :: y :: ys := by
      intro z hz
      rcases List.mem_cons.mp hz with rfl | hz
      · simp
      · simp [hz]
    unfold insertSorted
    split
    · rename_i hp
      refine List.pairwise_cons.mpr ⟨?_, ?_⟩
      · intro z hz
        rcases List.mem_cons.mp ((insertSorted_perm cmp x ys).mem_iff.mp hz) with rfl | hz
        · exact hpos _ hx y hy hp
        · exact hys.1 z hz
      · exact ih (fun a ha b hb => hpos a (hsub a ha) b (hsub b hb))
          (fun a ha b hb => hneg a (hsub a ha) b (hsub b hb))
          (fun a ha b hb c hc => htrans a (hsub a ha) b (hsub b hb) c (hsub c hc)) hys.2
    · rename_i hp
      have hxy : r x y := hneg x hx y hy (by simpa using hp)
      refine List.pairwise_cons.mpr ⟨?_, hl⟩
      intro z hz
      rcases List.mem_cons.mp hz with rfl | hz
      · exact hxy
      · exact htrans x hx y hy z (by simp [hz]) hxy (hys.1 z hz)

theorem sort_pairwise {α : Type} (cmp : α → α → JSNum) (r : α → α → Prop) (l : List α)
    (hpos : ∀ a ∈ l, ∀ b ∈ l, (sortCompare cmp a b).isPositive = true → r b a)
    (hneg : ∀ a ∈ l, ∀ b ∈ l, (sortCompare cmp a b).isPositive = false → r a b)
    (htrans : ∀ a ∈ l, ∀ b ∈ l, ∀ c ∈ l, r a b → r b c → r a c) :
    (sort cmp l).Pairwise r := by
  induction l with
  | nil => simp [sort]
  | cons x xs ih =>
    have hsub : ∀ z ∈ x :: sort cmp xs, z ∈ x :: xs := by
      intro z hz
      rcases List.mem_cons.mp hz with rfl | hz
      · simp
      · exact List.mem_cons_of_mem _ ((sort_perm cmp xs).mem_iff.mp hz)
    unfold sort
    apply insertSorted_pairwise
    · exact fun a ha b hb => hpos a (hsub a ha) b (hsub b hb)
    · exact fun a ha b hb => hneg a (hsub a ha) b (hsub b hb)
    · exact fun a ha b hb c hc => htrans a (hsub a ha) b (hsub b hb) c (hsub c hc)
    · exact ih (fun a ha b hb => hpos a (List.mem_cons_of_mem _ ha) b (List.mem_cons_of_mem _ hb))
        (fun a ha b hb => hneg a (List.mem_cons_of_mem _ ha) b (List.mem_cons_of_mem _ hb))
        (fun a ha b hb c hc => htrans a (List.mem_cons_of_mem _ ha) b
          (List.mem_cons_of_mem _ hb) c (List.mem_cons_of_mem _ hc))

/-! ## Lemmas on scores -/

theorem add_fin_ne_nan {x : JSNum} (h : x ≠ .nan) (m : Int) (k : Nat) :
    x.add (.fin m k) ≠ .nan := by
  rcases x with _ | ⟨a, j⟩ | _ | _ <;> simp_all [JSNum.add]

theorem citationCount_ne_nan_of_numericOrAbsent (item : RawArticle)
    (h : numericOrAbsent item.citedByCount = true) : citationCount item ≠ .nan := by
  unfold citationCount
  rcases hv : item.citedByCount with _ | _ | b | x | s
  · simp [orElse, truthy, toNumber]
  · simp [orElse, truthy, toNumber]
  · rw [hv] at h; simp [numericOrAbsent] at h
  · rcases x with _ | ⟨m, k⟩ | _ | _
    · simp [orElse, truthy, toNumber]
    · by_cases hz : (JSNum.fin m k).isZero = true
      · simp [orElse, truthy, hz, toNumber]
      · simp [orElse, truthy, hz, toNumber]
    · simp [orElse, truthy, toNumber, JSNum.isZero]
    · simp [orElse, truthy, toNumber, JSNum.isZero]
  · rw [hv] at h; simp [numericOrAbsent] at h

theorem score_ne_nan_of_numericOrAbsent (item : RawArticle)
    (h : numericOrAbsent item.citedByCount = true) : score item ≠ .nan :=
  add_fin_ne_nan (citationCount_ne_nan_of_numericOrAbsent item h) _ _

theorem sort_filter_pairwise (R : List RawArticle)
    (h : ∀ r ∈ R, keep r = true → score r ≠ .nan) :
    (sort compareFn (R.filter keep)).Pairwise (fun a b => (score a).ge (score b) = true) := by
  have hf : ∀ r ∈ R.filter keep, score r ≠ .nan :=
    fun r hr => h r (List.mem_filter.mp hr).1 (List.mem_filter.mp hr).2
  apply sort_pairwise
  · intro a ha b hb hp
    exact ge_of_positive (hf a ha) (hf b hb) hp
  · intro a ha b hb hp
    exact ge_of_not_positive (hf a ha) (hf b hb) hp
  · intro a _ b _ c _ h1 h2
    exact JSNum.ge_trans h1 h2

theorem append_diff_self {α : Type} [DecidableEq α] (l₁ l₂ : List α) :
    (l₁ ++ l₂).diff l₁ = l₂ := by
  induction l₁ with
  | nil => simp
  | cons x xs ih => simp [ih]

theorem keep_iff (x : RawArticle) :
    keep x = true ↔ (inAllowList x = true ∨ (citationCount x).ge (.fin 20 0) = true) := by
  unfold keep
  rw [has_strOr, Bool.or_eq_true]
  rfl

theorem ge_twenty_iff (x : JSNum) :
    x.ge (.fin 20 0) = true ↔ ((∃ m k, x = .fin m k ∧ 20 * 10 ^ k ≤ m) ∨ x = .pinf) := by
  rcases x with _ | ⟨m, k⟩ | _ | _
  · simp [JSNum.ge]
  · simp only [JSNum.ge, Int.pow_zero, Int.mul_one, decide_eq_true_eq, JSNum.fin.injEq,
      reduceCtorEq, or_false]
    constructor
    · intro h
      exact ⟨m, k, ⟨rfl, rfl⟩, h⟩
    · rintro ⟨m', k', ⟨rfl, rfl⟩, h⟩
      exact h
  · simp [JSNum.ge]
  · simp [JSNum.ge]

/-! ## The filter / rank pipeline -/

/-- C1: for every sequence `R` of raw records, the output of filter, sort and
`slice(0, 8)` holds only records of `R`, each at most as often as in `R` (it is
a sublist of a reordering of `R`), has at most 8 elements, and each element
passes the filter predicate, which says that the journal title is one of the
ten allow-listed names or the citation count `Number(citedByCount || 0)` is at
least 20. -/
theorem rank_sound (R : List RawArticle) :
    (∀ x ∈ rank R, x ∈ R) ∧
    (rank R).Subperm R ∧
    (∀ x, (rank R).count x ≤ R.count x) ∧
    (rank R).length ≤ 8 ∧
    (∀ x ∈ rank R, keep x = true) ∧
    (∀ x, keep x = true ↔
      (inAllowList x = true ∨ (citationCount x).ge (.fin 20 0) = true)) ∧
    (∀ x, keep x = true ↔
      (inAllowList x = true ∨ (∃ m k, citationCount x = .fin m k ∧ 20 * 10 ^ k ≤ m) ∨
        citationCount x = .pinf)) ∧
    HIGH_REPUTATION_JOURNALS.length = 10 := by
  have hmem : ∀ x ∈ rank R, x ∈ R.filter keep := fun x hx =>
    (sort_perm compareFn _).mem_iff.mp (List.mem_of_mem_take hx)
  refine ⟨fun x hx => (List.mem_filter.mp (hmem x hx)).1, ?_, ?_, ?_,
    fun x hx => (List.mem_filter.mp (hmem x hx)).2, keep_iff, ?_, rfl⟩
  · exact ((List.take_sublist 8 _).subperm.trans (sort_perm compareFn _).subperm).trans
      (List.filter_sublist R).subperm
  · intro x
    calc (rank R).count x
        ≤ (sort compareFn (R.filter keep)).count x := (List.take_sublist 8 _).count_le x
      _ = (R.filter keep).count x := (sort_perm compareFn _).count_eq x
      _ ≤ R.count x := (List.filter_sublist R).count_le x
  · exact List.length_take_le 8 _
  · intro x
    rw [keep_iff, ge_twenty_iff]

/-- C2 (as amended): for every sequence `R` of raw records in which no record
that passes the filter has the score `NaN`, as is the case whenever every
citation count is a number or absent, the output of the pipeline is ordered
non-increasing by score: `score(a) >= score(b)` for adjacent `a`, `b`. -/
theorem rank_nonIncreasing (R : List RawArticle)
    (h : ∀ r ∈ R, keep r = true → score r ≠ .nan) :
    NonIncreasing (rank R) ∧
    ∀ r : RawArticle, numericOrAbsent r.citedByCount = true → score r ≠ .nan := by
  refine ⟨?_, score_ne_nan_of_numericOrAbsent⟩
  unfold NonIncreasing rank
  apply List.Pairwise.chain'
  exact (sort_filter_pairwise R h).sublist (List.take_sublist 8 _)

/-- C10: for every sequence `R` of raw records with numeric or absent citation
counts, the pipeline returns exactly `min(8, q)` records, `q` the number of
records of `R` passing the filter, and every passing record left out of the
output scores no more than every record of the output. -/
theorem rank_top (R : List RawArticle)
    (h : ∀ r ∈ R, numericOrAbsent r.citedByCount = true) :
    (rank R).length = min 8 (R.countP keep) ∧
    (∀ x ∈ (R.filter keep).diff (rank R), ∀ y ∈ rank R, (score y).ge (score x) = true) ∧
    (∀ x ∈ R, keep x = true → x ∉ rank R → ∀ y ∈ rank R, (score y).ge (score x) = true) := by
  have hlen : (rank R).length = min 8 (R.countP keep) := by
    unfold rank
    rw [List.length_take, (sort_perm compareFn _).length_eq, List.countP_eq_length_filter]
  have hsplit : List.Perm ((R.filter keep).diff (rank R))
      ((sort compareFn (R.filter keep)).drop 8) := by
    have h1 := (sort_perm compareFn (R.filter keep)).symm.diff_right (rank R)
    have h2 : (sort compareFn (R.filter keep)).diff (rank R)
        = (sort compareFn (R.filter keep)).drop 8 := by
      conv_lhs => rw [← List.take_append_drop 8 (sort compareFn (R.filter keep))]
      exact append_diff_self _ _
    exact h2 ▸ h1
  have hpw := sort_filter_pairwise R
    (fun r hr _ => score_ne_nan_of_numericOrAbsent r (h r hr))
  rw [← List.take_append_drop 8 (sort compareFn (R.filter keep))] at hpw
  have hcross := (List.pairwise_append.mp hpw).2.2
  have hdiff : ∀ x ∈ (R.filter keep).diff (rank R), ∀ y ∈ rank R,
      (score y).ge (score x) = true :=
    fun x hx y hy => hcross y hy x (hsplit.mem_iff.mp hx)
  refine ⟨hlen, hdiff, ?_⟩
  intro x hx hk hnot
  exact hdiff x (List.mem_diff_of_mem (List.mem_filter.mpr ⟨hx, hk⟩) hnot)

/-- C2, counterexample: with an allow-listed record whose `citedByCount` is the
text `abc` (score `NaN`) next to one of score 105, the output keeps both and
`score(a) >= score(b)` fails for the adjacent pair, in either order. -/
theorem rank_nan_not_nonIncreasing :
    rank [sampleText, sampleLancet] = [sampleText, sampleLancet] ∧
    ¬ NonIncreasing (rank [sampleText, sampleLancet]) ∧
    score sampleText = .nan ∧ score sampleLancet = .fin 105 0 ∧
    (score sampleText).ge (score sampleLancet) = false ∧
    (score sampleLancet).ge (score sampleText) = false := by
  have hr : rank [sampleText, sampleLancet] = [sampleText, sampleLancet] := by decide
  refine ⟨hr, ?_, by decide, by decide, by decide, by decide⟩
  intro hc
  rw [hr] at hc
  have h := (List.chain'_cons.mp hc).1
  revert h
  decide

/-- Witness of `rank_nonIncreasing` on four records: three numeric ones and
one whose count is the text `abc`, which has score `NaN` and fails the
filter. -/
theorem rank_nonIncreasing_witness :
    (∀ r ∈ [sampleLancet, sampleUnknown, sampleCited,
        { sampleUnknown with citedByCount := .str (lit "abc") }],
      keep r = true → score r ≠ .nan) ∧
    rank [sampleLancet, sampleUnknown, sampleCited,
        { sampleUnknown with citedByCount := .str (lit "abc") }]
      = [sampleCited, sampleLancet] ∧
    NonIncreasing (rank [sampleLancet, sampleUnknown, sampleCited,
        { sampleUnknown with citedByCount := .str (lit "abc") }]) :=
  ⟨by decide, by decide, (rank_nonIncreasing _ (by decide)).1⟩

/-- Witness of `rank_top` on ten passing records, of which eight are returned. -/
theorem rank_top_witness :
    (∀ r ∈ sampleCited :: List.replicate 9 sampleLancet,
      numericOrAbsent r.citedByCount = true) ∧
    (rank (sampleCited :: List.replicate 9 sampleLancet)).length = 8 ∧
    (rank (sampleCited :: List.replicate 9 sampleLancet)).length
      = min 8 ((sampleCited :: List.replicate 9 sampleLancet).countP keep) :=
  ⟨by decide, by decide, (rank_top _ (by decide)).1⟩

/-! ## Query, score and formatting -/

/-- C7: for every topic `T` (so for every one that is non-empty after
trimming), `buildQuery(T)` is the OR-clause of the four domain synonyms,
` AND `, the OR-clause of the three surgical synonyms, ` AND `, and `(T)`; the
output contains `T` verbatim and starts with the two clauses joined by AND. -/
theorem buildQuery_spec (T : JSString) :
    buildQuery T =
      (lit "(" ++ join (lit " OR ") [lit "\"bloodless\"", lit "\"transfusion-free\"",
        lit "\"patient blood management\"", lit "\"blood conservation\""] ++ lit ")") ++
      lit " AND " ++
      (lit "(" ++ join (lit " OR ") [lit "surgery", lit "surgical", lit "operative"] ++ lit ")") ++
      lit " AND " ++ (lit "(" ++ T ++ lit ")") ∧
    T <:+: buildQuery T ∧
    (lit "(\"bloodless\" OR \"transfusion-free\" OR \"patient blood management\" OR \"blood conservation\")"
      ++ lit " AND " ++ lit "(surgery OR surgical OR operative)" ++ lit " AND ") <+: buildQuery T := by
  have h1 : lit "(\"bloodless\" OR \"transfusion-free\" OR \"patient blood management\" OR \"blood conservation\") AND (surgery OR surgical OR operative) AND ("
      = (lit "(" ++ join (lit " OR ") [lit "\"bloodless\"", lit "\"transfusion-free\"",
        lit "\"patient blood management\"", lit "\"blood conservation\""] ++ lit ")") ++
      lit " AND " ++
      (lit "(" ++ join (lit " OR ") [lit "surgery", lit "surgical", lit "operative"] ++ lit ")") ++
      lit " AND " ++ lit "(" := by decide
  have h2 : lit "(\"bloodless\" OR \"transfusion-free\" OR \"patient blood management\" OR \"blood conservation\") AND (surgery OR surgical OR operative) AND ("
      = lit "(\"bloodless\" OR \"transfusion-free\" OR \"patient blood management\" OR \"blood conservation\")"
      ++ lit " AND " ++ lit "(surgery OR surgical OR operative)" ++ lit " AND " ++ lit "(" := by
    decide
  refine ⟨?_, ⟨_, lit ")", rfl⟩, ⟨lit "(" ++ T ++ lit ")", ?_⟩⟩
  · unfold buildQuery
    rw [h1]
    simp only [List.append_assoc]
  · unfold buildQuery
    rw [h2]
    simp only [List.append_assoc]

theorem strOr_of_present (field : Option JSString) (dflt : JSString)
    (h : present field = true) : strOr field dflt = field.getD [] ∧ field.getD [] ≠ [] := by
  rcases field with _ | s
  · simp [present] at h
  · rcases s with _ | ⟨c, cs⟩
    · simp [present] at h
    · simp [strOr]

theorem strOr_of_not_present (field : Option JSString) (dflt : JSString)
    (h : present field = false) : strOr field dflt = dflt := by
  rcases field with _ | s
  · rfl
  · rcases s with _ | ⟨c, cs⟩
    · rfl
    · simp [present] at h

/-- C3, counterexample: an allow-listed record whose `citedByCount` is the
non-numeric text `abc` has citation count `NaN` and score `NaN`, not 100. -/
theorem score_text_is_nan :
    inAllowList sampleText = true ∧
    sampleText.citedByCount = .str (lit "abc") ∧
    citationCount sampleText = .nan ∧
    score sampleText = .nan ∧
    score sampleText ≠ .fin 100 0 := by
  decide

/-- C3 (as amended): for every raw record, `score(item)` is its citation count
plus 100 if its journal title is in the allow-list and plus 0 otherwise, where
the citation count is `Number(citedByCount || 0)`: 0 when `citedByCount` is
absent (`undefined`, `null`) or otherwise falsy, the number itself when it is a
number, and the numeric reading of the text when it is a string, which is `NaN`
for a non-numeric text and then makes the score `NaN`.  A record of
"The Lancet" with 5 citations has score 105 and passes the filter; an
allow-listed record with the non-numeric count `abc` has score `NaN` and
passes the filter by its journal. -/
theorem score_spec (item : RawArticle) :
    score item = (citationCount item).add (.fin (if inAllowList item then 100 else 0) 0) ∧
    citationCount item =
      (match item.citedByCount with
        | .undefined => .fin 0 0
        | .null => .fin 0 0
        | .bool b => .fin (if b then 1 else 0) 0
        | .num x => if x = .nan ∨ x.isZero = true then .fin 0 0 else x
        | .str s => stringToNumber s) ∧
    (∀ s, stringToNumber s = .nan →
      score { item with citedByCount := .str s } = .nan) ∧
    (score sampleLancet = .fin 105 0 ∧ keep sampleLancet = true) ∧
    (score sampleText = .nan ∧ keep sampleText = true) ∧
    (stringToNumber (lit "abc") = .nan ∧ stringToNumber (lit "20.0") = .fin 200 1 ∧
      stringToNumber (lit "1e3") = .fin 1000 0 ∧ stringToNumber (lit "0x14") = .fin 20 0 ∧
      stringToNumber (lit "Infinity") = .pinf) := by
  refine ⟨?_, ?_, ?_, by decide, by decide, by decide⟩
  · show (citationCount item).add
      (.fin (if has (strOr item.journalTitle (lit "")) then 100 else 0) 0) = _
    rw [has_strOr]
  · unfold citationCount
    rcases item.citedByCount with _ | _ | b | x | s
    · rfl
    · rfl
    · cases b <;> rfl
    · rcases x with _ | ⟨m, k⟩ | _ | _
      · rfl
      · by_cases hz : (JSNum.fin m k).isZero = true
        · simp [orElse, truthy, hz, toNumber]
        · simp [orElse, truthy, hz, toNumber]
      · simp [orElse, truthy, toNumber, JSNum.isZero]
      · simp [orElse, truthy, toNumber, JSNum.isZero]
    · rcases s with _ | ⟨c, cs⟩
      · rfl
      · rfl
  · intro s hs
    have hne : s ≠ [] := by
      rintro rfl
      revert hs
      decide
    obtain ⟨c, cs, rfl⟩ := List.exists_cons_of_ne_nil hne
    show (toNumber (orElse (.str (c :: cs)) (.num (.fin 0 0)))).add _ = .nan
    have : toNumber (orElse (.str (c :: cs)) (.num (.fin 0 0))) = .nan := hs
    rw [this]
    rfl

/-- C4: for every raw record, the `url` of `formatResult` is
`https://doi.org/` followed by the DOI when a DOI is present; is
`https://pubmed.ncbi.nlm.nih.gov/` followed by the PubMed id and `/` when no DOI
is present but a PubMed id is; and is the empty string when neither is
present. -/
theorem formatResult_url (item : RawArticle) :
    (present item.doi = true →
      (formatResult item).url = lit "https://doi.org/" ++ item.doi.getD []) ∧
    (present item.doi = false → present item.pmid = true →
      (formatResult item).url =
        lit "https://pubmed.ncbi.nlm.nih.gov/" ++ item.pmid.getD [] ++ lit "/") ∧
    (present item.doi = false → present item.pmid = false →
      (formatResult item).url = lit "") := by
  refine ⟨fun hd => ?_, fun hd hp => ?_, fun hd hp => ?_⟩
  · obtain ⟨h1, h2⟩ := strOr_of_present item.doi (lit "") hd
    simp [formatResult, h1, h2]
  · obtain ⟨h1, h2⟩ := strOr_of_present item.pmid (lit "") hp
    have h3 : strOr item.doi (lit "") = [] := strOr_of_not_present item.doi (lit "") hd
    simp [formatResult, h1, h2, h3]
  · have h1 : strOr item.doi (lit "") = [] := strOr_of_not_present item.doi (lit "") hd
    have h2 : strOr item.pmid (lit "") = [] := strOr_of_not_present item.pmid (lit "") hp
    simp [formatResult, h1, h2]

/-- Witness of `formatResult_url`: a record with both identifiers, one with a
PubMed id only, and one with neither. -/
theorem formatResult_url_witness :
    (formatResult sampleFull).url = lit "https://doi.org/10.1000/j.1" ∧
    (formatResult { sampleFull with doi := none }).url
      = lit "https://pubmed.ncbi.nlm.nih.gov/12345/" ∧
    (formatResult sampleLancet).url = lit "" :=
  ⟨(formatResult_url sampleFull).1 (by decide),
   (formatResult_url { sampleFull with doi := none }).2.1 (by decide) (by decide),
   (formatResult_url sampleLancet).2.2 (by decide) (by decide)⟩

/-- C5: for every raw record, the `abstract` of `formatResult` is the first 450
code units of the source text followed by the marker `...`, appended
unconditionally; its length is exactly 453 when the source text has at least
450 characters and the source text's length plus 3 otherwise. -/
theorem formatResult_abstract_length (item : RawArticle) :
    (formatResult item).abstract = slice0 (sourceText item) 450 ++ lit "..." ∧
    (450 ≤ (sourceText item).length → (formatResult item).abstract.length = 453) ∧
    ((sourceText item).length < 450 →
      (formatResult item).abstract.length = (sourceText item).length + 3) ∧
    (present item.abstractText = true → sourceText item = item.abstractText.getD []) ∧
    (present item.abstractText = false → sourceText item = lit "Resumo indisponível") := by
  have hlen : (formatResult item).abstract.length = min 450 (sourceText item).length + 3 := by
    show (slice0 (sourceText item) 450 ++ lit "...").length = _
    rw [List.length_append, slice0, List.length_take]
    rfl
  refine ⟨rfl, fun h => ?_, fun h => ?_, fun h => ?_, fun h => ?_⟩
  · rw [hlen]; omega
  · rw [hlen]; omega
  · exact (strOr_of_present _ _ h).1
  · exact strOr_of_not_present _ _ h

/-- Witness of `formatResult_abstract_length`: an abstract of 500 characters
gives 453, one of 15 characters gives 18. -/
theorem formatResult_abstract_length_witness :
    (formatResult { sampleFull with abstractText := some (List.replicate 500 0x61) }).abstract.length
      = 453 ∧
    (formatResult sampleFull).abstract.length = 15 + 3 :=
  ⟨(formatResult_abstract_length
      { sampleFull with abstractText := some (List.replicate 500 0x61) }).2.1 (by decide),
   (formatResult_abstract_length sampleFull).2.2.1 (by decide)⟩


/-! ## The mail link -/

theorem mapFrom_length {α β : Type} (f : Nat → α → β) (k : Nat) (l : List α) :
    (mapFrom f k l).length = l.length := by
  induction l generalizing k with
  | nil => rfl
  | cons a as ih => simp [mapFrom, ih]

theorem mapFrom_getElem? {α β : Type} (f : Nat → α → β) (k : Nat) (l : List α) (i : Nat) :
    (mapFrom f k l)[i]? = l[i]?.map (f (k + i)) := by
  induction l generalizing k i with
  | nil => simp [mapFrom]
  | cons a as ih =>
    cases i with
    | zero => simp [mapFrom]
    | succ j =>
      simp only [mapFrom, List.getElem?_cons_succ, ih]
      rw [show k + 1 + j = k + (j + 1) by omega]

theorem mailto_ne_hash (s : JSString) : lit "mailto:" ++ s ≠ lit "#" := by
  have h1 : lit "mailto:" = 109 :: lit "ailto:" := by decide
  have h2 : lit "#" = [35] := by decide
  rw [h1, h2]
  intro h
  have := (List.cons.inj h).1
  omega

/-- C6, counterexample: with a recipient typed in and one current result whose
title is a lone surrogate, `encodeURIComponent(body)` throws, so
`updateMailtoLink` sets nothing: the link stays the inert `#` although the
recipient and the result set are both non-empty.  The same happens inside the
submit handler, where the error lands in the `catch` block. -/
theorem updateMailtoLink_throws :
    trim samplePage.toEmailInput ≠ [] ∧
    [formatResult sampleSurrogate] ≠ [] ∧
    updateMailtoLink { samplePage with latestResults := [formatResult sampleSurrogate] } = none ∧
    (onEmailInput { samplePage with latestResults := [formatResult sampleSurrogate] }).mailtoHref
      = lit "#" ∧
    (submit (okResponse [sampleSurrogate]) samplePage).latestResults
      = [formatResult sampleSurrogate] ∧
    (submit (okResponse [sampleSurrogate]) samplePage).mailtoHref = lit "#" ∧
    (submit (okResponse [sampleSurrogate]) samplePage).feedback = retrievalErrorBanner := by
  decide

/-- C6 (as amended): `updateMailtoLink` sets the mail link to the inert `#`
when the trimmed recipient is empty or the current result set is empty;
otherwise, when `encodeURIComponent` succeeds on the recipient, the subject and
the body, it sets it to `mailto:` + enc(recipient) + `?subject=` + enc(subject)
+ `&body=` + enc(body), and when it throws on one of them (a lone surrogate)
nothing is set.  Whenever the link is set, it is `#` exactly in the first
case.  The subject contains the current topic and the body is the lines joined
by line feeds: a heading with the topic, an empty line, and for each current
result, in order and numbered from 1, a block with title, authors, journal
(year) and the URL, or `Sem link` when the URL is empty.  Nothing but the link
changes. -/
theorem updateMailtoLink_spec (p : Page) :
    ((trim p.toEmailInput = [] ∨ p.latestResults = []) →
      updateMailtoLink p = some { p with mailtoHref := lit "#" }) ∧
    (¬ (trim p.toEmailInput = [] ∨ p.latestResults = []) →
      ∀ t s b, encodeURIComponent (trim p.toEmailInput) = some t →
        encodeURIComponent (mailSubject p.latestTopic) = some s →
        encodeURIComponent (mailBody p.latestTopic p.latestResults) = some b →
        updateMailtoLink p = some { p with
          mailtoHref := lit "mailto:" ++ t ++ lit "?subject=" ++ s ++ lit "&body=" ++ b }) ∧
    (¬ (trim p.toEmailInput = [] ∨ p.latestResults = []) →
      (encodeURIComponent (trim p.toEmailInput) = none ∨
        encodeURIComponent (mailSubject p.latestTopic) = none ∨
        encodeURIComponent (mailBody p.latestTopic p.latestResults) = none) →
      updateMailtoLink p = none) ∧
    (∀ q, updateMailtoLink p = some q →
      (q = { p with mailtoHref := q.mailtoHref } ∧
       (q.mailtoHref = lit "#" ↔ (trim p.toEmailInput = [] ∨ p.latestResults = [])))) ∧
    p.latestTopic <:+: mailSubject p.latestTopic ∧
    (∃ blocks : List JSString,
      mailBody p.latestTopic p.latestResults =
        join (lit "\n") ((lit "Resultados para: " ++ p.latestTopic) :: lit "" :: blocks) ∧
      blocks.length = p.latestResults.length ∧
      ∀ (i : Nat) (a : DisplayArticle), p.latestResults[i]? = some a →
        blocks[i]? = some
          (natToString (i + 1) ++ lit ". " ++ a.title ++ lit "\n" ++ a.authors ++ lit "\n" ++
            a.journal ++ lit " (" ++ a.year ++ lit ")\n" ++
            (if a.url = [] then lit "Sem link" else a.url) ++ lit "\n")) := by
  have hguard : (((trim p.toEmailInput).isEmpty || p.latestResults.length == 0) = true) ↔
      (trim p.toEmailInput = [] ∨ p.latestResults = []) := by
    simp [List.isEmpty_iff]
  have hset : (trim p.toEmailInput = [] ∨ p.latestResults = []) →
      updateMailtoLink p = some { p with mailtoHref := lit "#" } := by
    intro hg
    have hg' := hguard.mpr hg
    simp only [updateMailtoLink, hg', if_true]
  have hmail : ¬ (trim p.toEmailInput = [] ∨ p.latestResults = []) →
      ∀ t s b, encodeURIComponent (trim p.toEmailInput) = some t →
        encodeURIComponent (mailSubject p.latestTopic) = some s →
        encodeURIComponent (mailBody p.latestTopic p.latestResults) = some b →
        updateMailtoLink p = some { p with
          mailtoHref := lit "mailto:" ++ t ++ lit "?subject=" ++ s ++ lit "&body=" ++ b } := by
    intro hn t s b ht hs hb
    have hg : ¬ ((trim p.toEmailInput).isEmpty || p.latestResults.length == 0) = true :=
      fun h => hn (hguard.mp h)
    simp only [updateMailtoLink, hg, ht, hs, hb]
    rfl
  have hthrow : ¬ (trim p.toEmailInput = [] ∨ p.latestResults = []) →
      (encodeURIComponent (trim p.toEmailInput) = none ∨
        encodeURIComponent (mailSubject p.latestTopic) = none ∨
        encodeURIComponent (mailBody p.latestTopic p.latestResults) = none) →
      updateMailtoLink p = none := by
    intro hn hnone
    have hg : ¬ ((trim p.toEmailInput).isEmpty || p.latestResults.length == 0) = true :=
      fun h => hn (hguard.mp h)
    simp only [updateMailtoLink, hg]
    rcases ht : encodeURIComponent (trim p.toEmailInput) with _ | t <;>
      rcases hs : encodeURIComponent (mailSubject p.latestTopic) with _ | s <;>
      rcases hb : encodeURIComponent (mailBody p.latestTopic p.latestResults) with _ | b <;>
      simp_all
  refine ⟨hset, hmail, hthrow, ?_,
    ⟨lit "Resultados de pesquisa médica: ", [], by simp [mailSubject]⟩, ?_⟩
  · intro q hq
    by_cases hg : trim p.toEmailInput = [] ∨ p.latestResults = []
    · rw [hset hg] at hq
      cases hq
      exact ⟨rfl, fun _ => hg, fun _ => rfl⟩
    · rcases ht : encodeURIComponent (trim p.toEmailInput) with _ | t
      · rw [hthrow hg (Or.inl ht)] at hq
        cases hq
      · rcases hs : encodeURIComponent (mailSubject p.latestTopic) with _ | s
        · rw [hthrow hg (Or.inr (Or.inl hs))] at hq
          cases hq
        · rcases hb : encodeURIComponent (mailBody p.latestTopic p.latestResults) with _ | b
          · rw [hthrow hg (Or.inr (Or.inr hb))] at hq
            cases hq
          · rw [hmail hg t s b ht hs hb] at hq
            cases hq
            refine ⟨rfl, fun h => ?_, fun h => absurd h hg⟩
            simp only [List.append_assoc] at h
            exact absurd h (mailto_ne_hash _)
  · refine ⟨mapFrom mailBlock 0 p.latestResults, rfl, mapFrom_length _ _ _, ?_⟩
    intro i a ha
    rw [mapFrom_getElem?, ha]
    simp only [Option.map_some', mailBlock, Nat.zero_add]
    cases hu : a.url <;> simp

/-- Witness of `updateMailtoLink_spec`: an empty recipient gives the inert
link, a recipient and one result give a real link. -/
theorem updateMailtoLink_witness :
    updateMailtoLink
      { samplePage with toEmailInput := lit "  ",
                        latestResults := [formatResult sampleFull] }
      = some { samplePage with toEmailInput := lit "  ",
                               latestResults := [formatResult sampleFull],
                               mailtoHref := lit "#" } ∧
    (updateMailtoLink
      { samplePage with latestTopic := lit "cardiac",
                        latestResults := [formatResult sampleFull] }).map Page.mailtoHref =
      some (lit "mailto:a%40b.c?subject=Resultados%20de%20pesquisa%20m%C3%A9dica%3A%20cardiac&body=Resultados%20para%3A%20cardiac%0A%0A1.%20Bloodless%20cardiac%20surgery%0ASilva%20A%2C%20Costa%20B.%0AJAMA%20Surgery%20(2021)%0Ahttps%3A%2F%2Fdoi.org%2F10.1000%2Fj.1%0A") :=
  ⟨(updateMailtoLink_spec _).1 (by decide), by decide⟩

/-! ## The submit handler -/

/-- C8 (the code at the failing input): for every prior state, when a search
completes with zero qualifying results, the handler empties the current result
set, hides both sections, shows the no-result banner and returns without
calling `updateMailtoLink`: the mail link keeps the value it had, so a real
link of an earlier search stays in place instead of `#`. -/
theorem empty_search_keeps_mailto (p : Page) (payload : Payload) (raw : List RawArticle)
    (status : Nat) (hs : isOk status = true) (hp : payload.raw = some raw)
    (h : filtered raw = []) :
    submitResume (.response status (.json payload)) p =
      showMessage (lit "error")
        (lit "Nenhum resultado com critério de reputação foi encontrado. Tente outro termo.")
        { p with latestResults := [], resultsCardHidden := true, emailCardHidden := true } ∧
    (submitResume (.response status (.json payload)) p).latestResults = [] ∧
    (submitResume (.response status (.json payload)) p).mailtoHref = p.mailtoHref ∧
    (trim p.topicInput ≠ [] →
      (submit (.response status (.json payload)) p).latestResults = [] ∧
      (submit (.response status (.json payload)) p).mailtoHref = p.mailtoHref) := by
  have hres : ∀ q : Page, submitResume (.response status (.json payload)) q =
      showMessage (lit "error")
        (lit "Nenhum resultado com critério de reputação foi encontrado. Tente outro termo.")
        { q with latestResults := [], resultsCardHidden := true, emailCardHidden := true } := by
    intro q
    unfold submitResume
    simp only [hs, Bool.not_true, Bool.false_eq_true, if_false]
    unfold onPayload
    simp only [hp, h, List.length_nil, beq_self_eq_true, if_true]
  refine ⟨hres p, ?_, ?_, ?_⟩
  · rw [hres]; rfl
  · rw [hres]; rfl
  · intro ht
    have hsub : submit (.response status (.json payload)) p =
        submitResume (.response status (.json payload)) (submitStart p).1 ∧
        (submitStart p).1.mailtoHref = p.mailtoHref := by
      unfold submit submitStart
      have : (trim (clearMessage p).topicInput).isEmpty = false := by
        simpa [clearMessage, List.isEmpty_iff] using ht
      simp only [this]
      exact ⟨rfl, rfl⟩
    rw [hsub.1, hres, ← hsub.2]
    exact ⟨rfl, rfl⟩

/-- Witness of `empty_search_keeps_mailto`: a first search returns one
allow-listed record and sets a real link; a second search returns one record
that fails the filter; afterwards the result set is empty and the link is
still the real one, not `#`. -/
theorem empty_search_keeps_mailto_witness :
    (submit (okResponse [sampleLancet]) samplePage).mailtoHref ≠ lit "#" ∧
    filtered [sampleUnknown] = [] ∧
    (submit (okResponse [sampleUnknown])
      (submit (okResponse [sampleLancet]) samplePage)).latestResults = [] ∧
    (submit (okResponse [sampleUnknown])
      (submit (okResponse [sampleLancet]) samplePage)).mailtoHref
      = (submit (okResponse [sampleLancet]) samplePage).mailtoHref ∧
    (submitResume (okResponse [sampleUnknown])
      (submit (okResponse [sampleLancet]) samplePage)).mailtoHref
      = (submit (okResponse [sampleLancet]) samplePage).mailtoHref :=
  ⟨by decide, by decide, by decide, by decide,
   (empty_search_keeps_mailto _ (.records [some sampleUnknown]) [sampleUnknown] 200
      (by decide) (by decide) (by decide)).2.2.1⟩

/-- C9: for every prior state, when the search request fails (network failure,
a non-success HTTP status such as 500, or a body that is not JSON), the submit
handler leaves the current result set as it was, hides the results section and
the email section, and shows the generic retrieval-error banner. -/
theorem submit_failure (r : SearchResponse) (p : Page) (hr : isFailure r = true) :
    (submitResume r p).latestResults = p.latestResults ∧
    (submitResume r p).resultsCardHidden = true ∧
    (submitResume r p).emailCardHidden = true ∧
    (submitResume r p).feedback = retrievalErrorBanner ∧
    (trim p.topicInput ≠ [] →
      (submit r p).latestResults = p.latestResults ∧
      (submit r p).resultsCardHidden = true ∧
      (submit r p).emailCardHidden = true ∧
      (submit r p).feedback = retrievalErrorBanner) := by
  have hb : lit "<div class=\"message " ++ lit "error" ++ lit "\">" ++
      lit "Falha ao consultar Europe PMC. Verifique conexão/CORS e tente novamente." ++
      lit "</div>" = retrievalErrorBanner := by decide
  have herr : ∀ q : Page, submitResume r q = onError q := by
    intro q
    rcases r with _ | ⟨status, body⟩
    · rfl
    · unfold submitResume
      by_cases hs : isOk status = true
      · rcases body with _ | payload
        · simp [hs]
        · simp [isFailure, hs] at hr
      · simp [hs]
  have hon : ∀ q : Page, (onError q).latestResults = q.latestResults ∧
      (onError q).resultsCardHidden = true ∧ (onError q).emailCardHidden = true ∧
      (onError q).feedback = retrievalErrorBanner := by
    intro q
    exact ⟨rfl, rfl, rfl, hb⟩
  refine ⟨?_, ?_, ?_, ?_, ?_⟩
  · rw [herr]; exact (hon p).1
  · rw [herr]; exact (hon p).2.1
  · rw [herr]; exact (hon p).2.2.1
  · rw [herr]; exact (hon p).2.2.2
  · intro ht
    have hsub : submit r p = onError (submitStart p).1 ∧
        (submitStart p).1.latestResults = p.latestResults := by
      unfold submit submitStart
      have : (trim (clearMessage p).topicInput).isEmpty = false := by
        simpa [clearMessage, List.isEmpty_iff] using ht
      simp only [this]
      exact ⟨herr _, rfl⟩
    rw [hsub.1, ← hsub.2]
    exact hon _

/-- Witness of `submit_failure`: status 500 after a successful search leaves
the one result of that search in place. -/
theorem submit_failure_witness :
    isFailure (.response 500 .malformed) = true ∧
    (submit (okResponse [sampleLancet]) samplePage).latestResults
      = [formatResult sampleLancet] ∧
    (submit (.response 500 .malformed)
      (submit (okResponse [sampleLancet]) samplePage)).latestResults
      = [formatResult sampleLancet] ∧
    (submit (.response 500 .malformed)
      (submit (okResponse [sampleLancet]) samplePage)).emailCardHidden = true :=
  ⟨by decide, by decide,
   (((submit_failure (.response 500 .malformed)
      (submit (okResponse [sampleLancet]) samplePage) (by decide)).2.2.2.2
        (by decide)).1).trans (by decide),
   ((submit_failure (.response 500 .malformed)
      (submit (okResponse [sampleLancet]) samplePage) (by decide)).2.2.2.2
        (by decide)).2.2.1⟩

end MedicalSearch
